import Mathlib

/-!
Shallow embedding of the repository file `text2wkt.py`
(class `Text2WKTProcessingAlgorithm`): the geometry builder
`WKT_linestring_from_nodes`, the column-index resolution and the row loop of
`main`, and the wiring of `processAlgorithm`, which calls
`main(parameters[INPUT], None, parameters[DELIMITER], column, feedback,
parameters[OUTPUT])`, so that the second argument (`column`) of `main` is
always `None` in the plugin invocation.

Python string primitives are modelled faithfully:
`str.split(sep)` with an explicit separator never returns an empty list
(splitting the empty string yields a list with one empty string);
`str.split()` with no argument splits on runs of whitespace and drops empty
tokens; `str.strip()` removes leading and trailing whitespace.
-/

set_option autoImplicit false

namespace Text2WKT

/-- Characters treated as whitespace by the Python `str.strip` / `str.split`
methods for ASCII input: space, tab, newline, carriage return, vertical tab,
form feed. -/
def pyIsSpace (c : Char) : Bool :=
  c = ' ' || c = '\t' || c = '\n' || c = '\r' || c = '\x0b' || c = '\x0c'

/-- Python `s.strip()`: drop leading and trailing whitespace. -/
def pyStrip (s : String) : String :=
  String.mk (((s.toList.dropWhile pyIsSpace).reverse.dropWhile pyIsSpace).reverse)

/-- Helper for `pySplitWs`: scans the character list, accumulating the current
token in `acc` (reversed); whitespace ends the current token, and empty tokens
are not produced. -/
def wsSplitAux : List Char → List Char → List String
  | [], acc => if acc.isEmpty then [] else [String.mk acc.reverse]
  | c :: cs, acc =>
    if pyIsSpace c then
      if acc.isEmpty then wsSplitAux cs [] else String.mk acc.reverse :: wsSplitAux cs []
    else wsSplitAux cs (c :: acc)

/-- Python `s.split()` with no argument: split on runs of whitespace,
discarding empty tokens; the empty string yields the empty list. -/
def pySplitWs (s : String) : List String := wsSplitAux s.toList []

/-- Helper for `pySplitSemicolon`: scans the character list, accumulating the
current segment in `acc` (reversed); each semicolon ends a segment, and the
final segment is always emitted, so the result is never the empty list. -/
def splitSemiAux : List Char → List Char → List String
  | [], acc => [String.mk acc.reverse]
  | c :: cs, acc =>
    if c = ';' then String.mk acc.reverse :: splitSemiAux cs []
    else splitSemiAux cs (c :: acc)

/-- Python `s.split(';')`: split on every semicolon, keeping empty segments;
the empty string yields a list containing one empty string. -/
def pySplitSemicolon (s : String) : List String := splitSemiAux s.toList []

/-- The per-node computation of the loop body of `WKT_linestring_from_nodes`
(source lines 212-217): `coords = node.strip().split()`. -/
def coordsOf (node : String) : List String := pySplitWs (pyStrip node)

/-- The coordinate pair a single node contributes, if any: when
`node.strip().split()` has at least two tokens the pair is
`"{coords[1]} {coords[0]}"` (longitude first, then latitude); a node with
fewer than two tokens contributes nothing. -/
def coordPair (node : String) : Option String :=
  match coordsOf node with
  | c0 :: c1 :: _ => some (c1 ++ " " ++ c0)
  | _ => none

/-- The `for node in nodes` loop of `WKT_linestring_from_nodes`
(source lines 211-217), which builds `coord_pair_list` by appending
`"{coords[1]} {coords[0]}"` for each node whose token list has length at
least two. -/
def buildPairs (nodes : List String) : List String :=
  nodes.foldl
    (fun acc node =>
      match coordsOf node with
      | c0 :: c1 :: _ => acc ++ [c1 ++ " " ++ c0]
      | _ => acc)
    []

/-- Embedding of `WKT_linestring_from_nodes` (source lines 202-222):
split the node string on semicolons; if the resulting list is non-empty
(which is always the case in Python), choose `LINESTRING` when it has more
than one element and `POINT` otherwise, join the coordinate pairs of the
valid nodes with a comma and a space, and wrap them in `KIND(...)`;
otherwise return `None`. -/
def WKT_linestring_from_nodes (node_string : String) : Option String :=
  let nodes := pySplitSemicolon node_string
  if nodes ≠ [] then
    let WKT_type := if 1 < nodes.length then "LINESTRING" else "POINT"
    let line_coord_string := String.intercalate ", " (buildPairs nodes)
    some (WKT_type ++ "(" ++ line_coord_string ++ ")")
  else
    none

/-- The list of coordinate pairs kept from a node string, in segment order:
the pairs of the segments that have at least two tokens. Proved equal to the
loop result `buildPairs` below. -/
def coordPairs (s : String) : List String :=
  (pySplitSemicolon s).filterMap coordPair

/-- Errors the embedded fragments of `main` can raise. -/
inductive PyErr where
  | valueError (msg : String)
  | indexError
deriving DecidableEq, Repr

/-- Python truthiness of the `column` argument of `main`: `None` and the
empty string are falsy, every other string is truthy. -/
def pyTruthy : Option String → Bool
  | none => false
  | some s => s != ""

/-- Value of a decimal digit list, most significant first. -/
def digitsToNat (cs : List Char) : Nat :=
  cs.foldl (fun n c => 10 * n + (c.toNat - '0'.toNat)) 0

/-- Python `int(s)` on a string: surrounding whitespace is ignored, an
optional sign is followed by at least one decimal digit; anything else
raises `ValueError` (modelled as `none`). Underscore digit grouping is not
modelled. -/
def pyInt (s : String) : Option Int :=
  match (pyStrip s).toList with
  | '-' :: rest =>
    if rest ≠ [] && rest.all Char.isDigit then some (-(digitsToNat rest : Int)) else none
  | '+' :: rest =>
    if rest ≠ [] && rest.all Char.isDigit then some (digitsToNat rest : Int) else none
  | cs =>
    if cs ≠ [] && cs.all Char.isDigit then some (digitsToNat cs : Int) else none

/-- Python `list.index(x)`: position of the first exact match, `None`
standing for the `ValueError` raised when there is no match. -/
def listIndex (l : List String) (x : String) : Option Nat :=
  match l with
  | [] => none
  | y :: ys => if y = x then some 0 else (listIndex ys x).map (· + 1)

/-- Embedding of the column resolution of `main` (source line 192):
`colindex = int(column) - 1 if column else header.index(column_name)`.
The branch is chosen by the truthiness of the separate `column` argument,
not by whether any string parses as an integer. -/
def colindexFrom (header : List String) (column : Option String)
    (column_name : String) : Except PyErr Int :=
  if pyTruthy column then
    match pyInt (column.getD "") with
    | some n => .ok (n - 1)
    | none => .error (.valueError "invalid literal for int")
  else
    match listIndex header column_name with
    | some i => .ok (i : Int)
    | none => .error (.valueError "not in list")

/-- The column resolution as reached from the plugin: `processAlgorithm`
(source lines 167-174) passes `None` for the `column` argument of `main` and
the COLUMN parameter string for `column_name`, so the selector is always
resolved by exact name lookup in the header. -/
def resolveSelector (header : List String) (selector : String) : Except PyErr Int :=
  colindexFrom header none selector

/-- Python `row[i]` on a list: a negative index counts from the end; an index
out of range raises `IndexError`. -/
def pyGetItem (row : List String) (i : Int) : Except PyErr String :=
  let j := if i < 0 then i + row.length else i
  if h : 0 ≤ j ∧ j.toNat < row.length then .ok (row.get ⟨j.toNat, h.2⟩)
  else .error .indexError

/-- Python `row[i] = v` on a list: same index rules as `pyGetItem`. -/
def pySetItem (row : List String) (i : Int) (v : String) : Except PyErr (List String) :=
  let j := if i < 0 then i + row.length else i
  if 0 ≤ j ∧ j.toNat < row.length then .ok (row.set j.toNat v)
  else .error .indexError

/-- What `csv.writer` writes for the transformed field: the string itself,
or the literal text `None` when `WKT_linestring_from_nodes` returned `None`
(Python writes `str(None)`). -/
def noneToText : Option String → String
  | some s => s
  | none => "None"

/-- The body of the `for row in reader` loop of `main` (source lines
195-199): read the selected field (`''.join` over a string is the identity
and is kept as such), convert it, and store the result back at the same
position. -/
def processRow (colindex : Int) (row : List String) : Except PyErr (List String) := do
  let field ← pyGetItem row colindex
  let node_string := String.mk field.toList
  pySetItem row colindex (noneToText (WKT_linestring_from_nodes node_string))

/-- The row loop of `main`: returns the rows written by `writer.writerow`
in order, together with the error that aborted the loop, if any; an error
in a row stops the run, and later rows are not written. -/
def writeRows (colindex : Int) : List (List String) → List (List String) × Option PyErr
  | [] => ([], none)
  | row :: rest =>
    match processRow colindex row with
    | .error e => ([], some e)
    | .ok outrow =>
      let res := writeRows colindex rest
      (outrow :: res.1, res.2)

/-- Embedding of the record pipeline of `main` (source lines 191-199):
read the header, resolve the column index, write the header, then transform
and write each data row. The result is the full list of written records
(header included) and the error that aborted the run, if any. The column is
resolved before the header is written, so a resolution error writes
nothing. -/
def mainRun (header : List String) (rows : List (List String))
    (column : Option String) (column_name : String) :
    List (List String) × Option PyErr :=
  match colindexFrom header column column_name with
  | .error e => ([], some e)
  | .ok colindex =>
    let res := writeRows colindex rows
    (header :: res.1, res.2)

/-! ### Helper lemmas -/

/-- One step of the coordinate loop appends exactly the pair the node
contributes. -/
theorem pairStep_eq_coordPair (acc : List String) (node : String) :
    (match coordsOf node with
      | c0 :: c1 :: _ => acc ++ [c1 ++ " " ++ c0]
      | _ => acc) = acc ++ (coordPair node).toList := by
  unfold coordPair
  rcases h : coordsOf node with _ | ⟨c0, _ | ⟨c1, rest⟩⟩ <;> simp

/-- The coordinate loop of `WKT_linestring_from_nodes` keeps exactly the
pairs of the valid nodes, in order. -/
theorem buildPairs_eq_filterMap (nodes : List String) :
    buildPairs nodes = nodes.filterMap coordPair := by
  suffices h : ∀ acc, nodes.foldl
      (fun acc node =>
        match coordsOf node with
        | c0 :: c1 :: _ => acc ++ [c1 ++ " " ++ c0]
        | _ => acc) acc = acc ++ nodes.filterMap coordPair by
    simpa [buildPairs] using h []
  induction nodes with
  | nil => simp
  | cons n ns ih =>
    intro acc
    rw [List.foldl_cons, pairStep_eq_coordPair, ih, List.filterMap_cons]
    cases coordPair n <;> simp

/-- Splitting on semicolons never produces the empty list. -/
theorem splitSemiAux_ne_nil (cs : List Char) (acc : List Char) :
    splitSemiAux cs acc ≠ [] := by
  induction cs generalizing acc with
  | nil => simp [splitSemiAux]
  | cons c cs ih =>
    by_cases hc : c = ';' <;> simp [splitSemiAux, hc, ih]

/-- Python semantics: `node_string.split(';')` is never the empty list, so
the guard `if nodes:` in `WKT_linestring_from_nodes` always succeeds. -/
theorem pySplitSemicolon_ne_nil (s : String) : pySplitSemicolon s ≠ [] :=
  splitSemiAux_ne_nil s.toList []

/-- Closed form of `WKT_linestring_from_nodes`: the result is always `some`,
the kind is chosen by the raw segment count, and the body is the
comma-space join of the pairs of the valid nodes. -/
theorem wkt_eq (s : String) :
    WKT_linestring_from_nodes s =
      some ((if 1 < (pySplitSemicolon s).length then "LINESTRING" else "POINT") ++
        "(" ++ String.intercalate ", " (coordPairs s) ++ ")") := by
  simp [WKT_linestring_from_nodes, coordPairs, buildPairs_eq_filterMap,
    pySplitSemicolon_ne_nil s]

/-- Splitting a character list around an explicit semicolon splits around
it. -/
theorem splitSemiAux_append (xs ys : List Char) (acc : List Char) :
    splitSemiAux (xs ++ ';' :: ys) acc = splitSemiAux xs acc ++ splitSemiAux ys [] := by
  induction xs generalizing acc with
  | nil => simp [splitSemiAux]
  | cons c cs ih =>
    by_cases hc : c = ';' <;> simp [splitSemiAux, hc, ih]

/-- Python semantics of split with an explicit separator:
`(s + ";" + m).split(';') = s.split(';') + m.split(';')`. -/
theorem pySplitSemicolon_append (s m : String) :
    pySplitSemicolon (s ++ ";" ++ m) = pySplitSemicolon s ++ pySplitSemicolon m := by
  unfold pySplitSemicolon
  have h : (s ++ ";" ++ m).toList = s.toList ++ ';' :: m.toList := by
    show (s ++ ";" ++ m).data = s.data ++ ';' :: m.data
    rw [String.data_append, String.data_append]
    show s.data ++ [';'] ++ m.data = _
    simp
  rw [h, splitSemiAux_append]

/-- A segment with no semicolon splits to itself alone. -/
theorem splitSemiAux_no_semi (cs : List Char) (acc : List Char)
    (h : ∀ c ∈ cs, c ≠ ';') :
    splitSemiAux cs acc = [String.mk (acc.reverse ++ cs)] := by
  induction cs generalizing acc with
  | nil => simp [splitSemiAux]
  | cons c cs ih =>
    have hc : c ≠ ';' := h c (by simp)
    rw [splitSemiAux, if_neg hc, ih _ (fun d hd => h d (by simp [hd]))]
    simp

/-- A string containing no semicolon is a single segment. -/
theorem pySplitSemicolon_eq_self (m : String) (h : ∀ c ∈ m.toList, c ≠ ';') :
    pySplitSemicolon m = [m] := by
  unfold pySplitSemicolon
  rw [splitSemiAux_no_semi m.toList [] h]
  simp

/-- A node with fewer than two tokens contributes no pair. -/
theorem coordPair_eq_none (m : String) (h : (coordsOf m).length < 2) :
    coordPair m = none := by
  unfold coordPair
  rcases hm : coordsOf m with _ | ⟨c0, _ | ⟨c1, rest⟩⟩
  · rfl
  · rfl
  · exfalso; rw [hm] at h; simp only [List.length_cons] at h; omega

-- Equality of concrete resolver results is decidable.
deriving instance DecidableEq for Except

/-- At a valid index, the row loop body replaces exactly the selected field
with the converted value and leaves the rest of the row alone. -/
theorem processRow_ok (ci : Nat) (row : List String) (h : ci < row.length) :
    processRow (ci : Int) row =
      .ok (row.set ci (noneToText (WKT_linestring_from_nodes (row.getD ci "")))) := by
  have h0 : ¬ ((ci : Int) < 0) := by omega
  have hmk : ∀ t : String, String.mk t.toList = t := fun _ => rfl
  rw [List.getD_eq_getElem row "" h]
  simp [processRow, pyGetItem, pySetItem, h0, Int.toNat_natCast, h, hmk,
    Except.bind]
  rfl

/-- When every row is long enough, the row loop writes one transformed row
per input row, in order, and finishes without error. -/
theorem writeRows_map (ci : Nat) (rows : List (List String))
    (h : ∀ r ∈ rows, ci < r.length) :
    writeRows (ci : Int) rows =
      (rows.map (fun r => r.set ci (noneToText (WKT_linestring_from_nodes (r.getD ci "")))),
        none) := by
  induction rows with
  | nil => rfl
  | cons r rs ih =>
    have hr : ci < r.length := h r (by simp)
    rw [writeRows, processRow_ok ci r hr, ih (fun x hx => h x (by simp [hx]))]
    rfl

/-- With `column = None` (the plugin wiring) and a header containing the
selector, the column index is the position of the selector in the header. -/
theorem colindexFrom_name (header : List String) (cn : String) (ci : Nat)
    (h : listIndex header cn = some ci) :
    colindexFrom header none cn = .ok (ci : Int) := by
  simp [colindexFrom, pyTruthy, h]

/-! ### Claim theorems -/

/-- Claim C1, counterexample: the NodeString "1.5 2.5;x" keeps exactly one
well-formed segment, yet `WKT_linestring_from_nodes` returns
`LINESTRING(2.5 1.5)` and not the `POINT(2.5 1.5)` the claim requires,
because the kind is chosen from the raw segment count. -/
theorem point_kind_counterexample :
    (coordPairs "1.5 2.5;x").length = 1 ∧
    WKT_linestring_from_nodes "1.5 2.5;x" = some "LINESTRING(2.5 1.5)" ∧
    WKT_linestring_from_nodes "1.5 2.5;x" ≠ some "POINT(2.5 1.5)" :=
  ⟨by decide, by decide, by decide⟩

/-- Claim C1, amended: the kind of the emitted WKT is determined solely by
the number of semicolon-separated segments, not by the number of valid
nodes kept: exactly one segment gives `POINT`, two or more segments give
`LINESTRING` regardless of how many are valid; in particular two or more
kept valid nodes always give `LINESTRING`. -/
theorem wkt_kind_from_segment_count (s : String) :
    ((pySplitSemicolon s).length = 1 →
      WKT_linestring_from_nodes s =
        some ("POINT(" ++ String.intercalate ", " (coordPairs s) ++ ")")) ∧
    (1 < (pySplitSemicolon s).length →
      WKT_linestring_from_nodes s =
        some ("LINESTRING(" ++ String.intercalate ", " (coordPairs s) ++ ")")) ∧
    (2 ≤ (coordPairs s).length →
      WKT_linestring_from_nodes s =
        some ("LINESTRING(" ++ String.intercalate ", " (coordPairs s) ++ ")")) := by
  have hle : (coordPairs s).length ≤ (pySplitSemicolon s).length := by
    unfold coordPairs
    exact List.length_filterMap_le _ _
  refine ⟨fun h1 => ?_, fun h2 => ?_, fun h3 => ?_⟩
  · rw [wkt_eq, if_neg (by omega)]
    rfl
  · rw [wkt_eq, if_pos h2]
    rfl
  · rw [wkt_eq, if_pos (by omega)]
    rfl

/-- Witness for the amended claim C1 at two concrete inputs: one segment
gives a POINT, two segments give a LINESTRING. -/
theorem wkt_kind_from_segment_count_witness :
    WKT_linestring_from_nodes "1.5 2.5" =
      some ("POINT(" ++ String.intercalate ", " (coordPairs "1.5 2.5") ++ ")") ∧
    WKT_linestring_from_nodes "1.0 2.0;3.0 4.0" =
      some ("LINESTRING(" ++
        String.intercalate ", " (coordPairs "1.0 2.0;3.0 4.0") ++ ")") :=
  ⟨(wkt_kind_from_segment_count "1.5 2.5").1 (by decide),
   (wkt_kind_from_segment_count "1.0 2.0;3.0 4.0").2.2 (by decide)⟩

/-- Claim C2 (the code violates it): `WKT_linestring_from_nodes` never
returns `None` for any input, because splitting on semicolons never yields
an empty list; the empty NodeString gives `POINT()` and the malformed-only
NodeString "12;34" gives `LINESTRING()` instead of the null result the
claim requires. -/
theorem wkt_never_none :
    (∀ s, (WKT_linestring_from_nodes s).isSome = true) ∧
    WKT_linestring_from_nodes "" = some "POINT()" ∧
    WKT_linestring_from_nodes "12;34" = some "LINESTRING()" := by
  refine ⟨fun s => ?_, by decide, by decide⟩
  rw [wkt_eq]
  rfl

/-- Claim C3: a kept node emits its pair with the axis order reversed, the
second token first and the first token second, both as literal text; in
particular the NodeString "1.5 2.5" gives `POINT(2.5 1.5)`. -/
theorem coord_pair_axis_swap (node c0 c1 : String) (rest : List String)
    (h : coordsOf node = c0 :: c1 :: rest) :
    coordPair node = some (c1 ++ " " ++ c0) ∧
    WKT_linestring_from_nodes "1.5 2.5" = some "POINT(2.5 1.5)" := by
  refine ⟨?_, by decide⟩
  unfold coordPair
  rw [h]

/-- Witness for claim C3 at the node "1.5 2.5". -/
theorem coord_pair_axis_swap_witness :
    coordPair "1.5 2.5" = some ("2.5" ++ " " ++ "1.5") ∧
    WKT_linestring_from_nodes "1.5 2.5" = some "POINT(2.5 1.5)" :=
  coord_pair_axis_swap "1.5 2.5" "1.5" "2.5" [] (by decide)

/-- Claim C4: for every input string, without any precondition,
`WKT_linestring_from_nodes` returns a string of the shape `KIND(pairs)`
with `KIND` either `POINT` or `LINESTRING`: splitting any string on
semicolons yields a non-empty list, so the `None` branch is unreachable,
and the empty NodeString gives `POINT()`. -/
theorem wkt_total_shape (s : String) :
    pySplitSemicolon s ≠ [] ∧
    (∃ kind body, WKT_linestring_from_nodes s = some (kind ++ "(" ++ body ++ ")") ∧
      (kind = "POINT" ∨ kind = "LINESTRING")) ∧
    WKT_linestring_from_nodes "" = some "POINT()" := by
  refine ⟨pySplitSemicolon_ne_nil s, ?_, by decide⟩
  refine ⟨if 1 < (pySplitSemicolon s).length then "LINESTRING" else "POINT",
    String.intercalate ", " (coordPairs s), wkt_eq s, ?_⟩
  by_cases h : 1 < (pySplitSemicolon s).length
  · right; rw [if_pos h]
  · left; rw [if_neg h]

/-- Claim C5: a NodeString with k well-formed segments, k at least two,
gives a `LINESTRING` whose body is exactly the k kept pairs in original
segment order, joined by a comma and a space with no trailing separator. -/
theorem wkt_linestring_k_pairs (s : String) (k : Nat)
    (hk : (coordPairs s).length = k) (h2 : 2 ≤ k) :
    WKT_linestring_from_nodes s =
      some ("LINESTRING(" ++ String.intercalate ", " (coordPairs s) ++ ")") ∧
    (coordPairs s).length = k := by
  have hle : (coordPairs s).length ≤ (pySplitSemicolon s).length := by
    unfold coordPairs
    exact List.length_filterMap_le _ _
  refine ⟨?_, hk⟩
  rw [wkt_eq, if_pos (by omega)]
  rfl

/-- Witness for claim C5 at the two-segment NodeString from the spec. -/
theorem wkt_linestring_k_pairs_witness :
    WKT_linestring_from_nodes "1.0 2.0;3.0 4.0" =
      some "LINESTRING(2.0 1.0, 4.0 3.0)" ∧
    (coordPairs "1.0 2.0;3.0 4.0").length = 2 := by
  have h := wkt_linestring_k_pairs "1.0 2.0;3.0 4.0" 2 (by decide) (by decide)
  exact ⟨h.1.trans (by decide), h.2⟩

/-- Claim C6: a segment with fewer than two tokens is silently discarded
(appending one to a NodeString leaves the kept pairs unchanged, and the
function still returns a value rather than raising), tokens beyond the
first two of a kept segment are ignored (the pair uses only the first two
tokens, whatever follows them), and in particular the NodeString
"1.0 2.0 99.0 0.5" gives `POINT(2.0 1.0)`. -/
theorem malformed_dropped_extra_ignored (s m node c0 c1 : String)
    (rest : List String)
    (hm : (coordsOf m).length < 2) (hsemi : ∀ c ∈ m.toList, c ≠ ';')
    (hn : coordsOf node = c0 :: c1 :: rest) :
    coordPairs (s ++ ";" ++ m) = coordPairs s ∧
    (WKT_linestring_from_nodes (s ++ ";" ++ m)).isSome = true ∧
    coordPair node = some (c1 ++ " " ++ c0) ∧
    WKT_linestring_from_nodes "1.0 2.0 99.0 0.5" = some "POINT(2.0 1.0)" := by
  refine ⟨?_, ?_, ?_, by decide⟩
  · unfold coordPairs
    rw [pySplitSemicolon_append, List.filterMap_append,
      pySplitSemicolon_eq_self m hsemi]
    simp [coordPair_eq_none m hm]
  · rw [wkt_eq]
    rfl
  · unfold coordPair
    rw [hn]

/-- Witness for claim C6: appending the malformed segment "x" to "1.0 2.0"
changes nothing, and the four-token node keeps only its first two tokens. -/
theorem malformed_dropped_extra_ignored_witness :
    coordPairs ("1.0 2.0" ++ ";" ++ "x") = coordPairs "1.0 2.0" ∧
    (WKT_linestring_from_nodes ("1.0 2.0" ++ ";" ++ "x")).isSome = true ∧
    coordPair "1.0 2.0 99.0 0.5" = some ("2.0" ++ " " ++ "1.0") ∧
    WKT_linestring_from_nodes "1.0 2.0 99.0 0.5" = some "POINT(2.0 1.0)" :=
  malformed_dropped_extra_ignored "1.0 2.0" "x" "1.0 2.0 99.0 0.5" "1.0" "2.0"
    ["99.0", "0.5"] (by decide) (by decide) (by decide)

/-- Claim C7, counterexample: with the header ["id", "trace"], the selector
"2" parses as an integer, yet the resolver reached from the plugin
invocation (which always passes `None` for the numeric argument of `main`)
looks it up as a column name and fails with a ValueError instead of
returning index 1. -/
theorem numeric_selector_counterexample :
    pyInt "2" = some 2 ∧
    resolveSelector ["id", "trace"] "2" = .error (.valueError "not in list") ∧
    resolveSelector ["id", "trace"] "2" ≠ .ok 1 :=
  ⟨by decide, by decide, by decide⟩

/-- Claim C7, amended: the resolver dispatches on the truthiness of the
separate `column` argument of `main`, not on whether the selector parses as
an integer: when `column` is a non-empty string that parses as an integer n
the index is n - 1, and when `column` is `None` (as in every plugin
invocation) the selector is matched exactly and case-sensitively against
the header, so "trace" resolves to index 1 in ["id", "trace"] while a
numeric selector reaches the name lookup. -/
theorem resolver_dispatch_amended (header : List String) (sel c cn : String)
    (i : Nat) (n : Int)
    (hname : listIndex header sel = some i)
    (hc : c ≠ "") (hn : pyInt c = some n) :
    resolveSelector header sel = .ok (i : Int) ∧
    colindexFrom header (some c) cn = .ok (n - 1) ∧
    resolveSelector ["id", "trace"] "trace" = .ok 1 := by
  refine ⟨colindexFrom_name header sel i hname, ?_, by decide⟩
  simp [colindexFrom, pyTruthy, hc, hn]

/-- Witness for the amended claim C7 with header ["id", "trace"], name
selector "trace" and numeric argument "2". -/
theorem resolver_dispatch_amended_witness :
    resolveSelector ["id", "trace"] "trace" = .ok ((1 : Nat) : Int) ∧
    colindexFrom ["id", "trace"] (some "2") "x" = .ok (2 - 1) ∧
    resolveSelector ["id", "trace"] "trace" = .ok 1 :=
  resolver_dispatch_amended ["id", "trace"] "trace" "2" "x" 1 2
    (by decide) (by decide) (by decide)

/-- Claim C8: when every data row has C fields and the resolved column
index is below C, the run succeeds, writing the unmodified header first and
then exactly one output row per input row in order; each output row keeps
its field count and differs from its input row only at the resolved
column. -/
theorem main_frame_preservation (header : List String)
    (rows : List (List String)) (cn : String) (ci C : Nat)
    (hres : listIndex header cn = some ci)
    (hC : ∀ r ∈ rows, r.length = C) (hci : ci < C) :
    mainRun header rows none cn =
      (header ::
        rows.map (fun r => r.set ci (noneToText (WKT_linestring_from_nodes (r.getD ci "")))),
        none) ∧
    (rows.map (fun r => r.set ci (noneToText (WKT_linestring_from_nodes (r.getD ci ""))))).length
      = rows.length ∧
    (∀ r ∈ rows,
      (r.set ci (noneToText (WKT_linestring_from_nodes (r.getD ci "")))).length = r.length) ∧
    (∀ r ∈ rows, ∀ j, j ≠ ci →
      (r.set ci (noneToText (WKT_linestring_from_nodes (r.getD ci ""))))[j]? = r[j]?) := by
  have hlen : ∀ r ∈ rows, ci < r.length := fun r hr => by
    rw [hC r hr]
    exact hci
  refine ⟨?_, List.length_map _ _, fun r hr => List.length_set _ _ _,
    fun r hr j hj => List.getElem?_set_ne (Ne.symm hj)⟩
  simp [mainRun, colindexFrom_name header cn ci hres, writeRows_map ci rows hlen]

/-- Witness for claim C8 on a one-row input, also evaluating the
transformed output concretely. -/
theorem main_frame_preservation_witness :
    (mainRun ["id", "trace"] [["1", "1.5 2.5"]] none "trace" =
      (["id", "trace"] ::
        [["1", "1.5 2.5"]].map
          (fun r => r.set 1 (noneToText (WKT_linestring_from_nodes (r.getD 1 "")))),
        none)) ∧
    mainRun ["id", "trace"] [["1", "1.5 2.5"]] none "trace" =
      ([["id", "trace"], ["1", "POINT(2.5 1.5)"]], none) := by
  have h := main_frame_preservation ["id", "trace"] [["1", "1.5 2.5"]] "trace" 1 2
    (by decide) (by decide) (by decide)
  exact ⟨h.1, h.1.trans (by decide)⟩

/-- Claim C9 (the code violates it): on a data row shorter than the
resolved column index the run aborts with an uncaught IndexError after the
rows already written, rather than applying any decided policy (no skip, no
padding, no named error): here the header resolves "trace" to index 1, the
first row is transformed, and the one-field row ["only"] kills the run. -/
theorem short_row_unhandled_index_fault :
    mainRun ["id", "trace"] [["1", "1.5 2.5"], ["only"]] none "trace" =
      ([["id", "trace"], ["1", "POINT(2.5 1.5)"]], some .indexError) := by decide

/-- Claim C10: when the selector is resolved by name and matches no header
field, the run fails with the ValueError of the failed lookup before
anything is written: the output record list is empty, so in particular no
transformed data row is written. -/
theorem column_not_found_writes_nothing (header : List String)
    (rows : List (List String)) (cn : String)
    (h : listIndex header cn = none) :
    mainRun header rows none cn = ([], some (.valueError "not in list")) := by
  simp [mainRun, colindexFrom, pyTruthy, h]

/-- Witness for claim C10 with the selector "geom" absent from the
header. -/
theorem column_not_found_writes_nothing_witness :
    mainRun ["id", "trace"] [["1", "1.5 2.5"]] none "geom" =
      ([], some (.valueError "not in list")) :=
  column_not_found_writes_nothing ["id", "trace"] [["1", "1.5 2.5"]] "geom"
    (by decide)

end Text2WKT
